import Mathlib

/-!
Verification development for the ClassMate Idea Hub backend
(`backend/server.js`, plus a second server variant found in the sources).

The Express handlers are shallowly embedded: request bodies are structures
of optional string fields (a missing JSON field is `none`; express-validator
stringifies a missing value to `""` before validating), the MySQL store is a
structure of lists of rows, and each route handler is a pure function from a
store, a flag saying whether the database write succeeds, and a body to the
new store and the HTTP response.
-/

namespace ClassMate

/-- Whitespace recognised by the `.trim()` sanitizer (modelled on the ASCII
whitespace that JS `String.prototype.trim` strips). -/
def isJsWhitespace (c : Char) : Bool :=
  c = ' ' || c = '\t' || c = '\n' || c = '\r'

/-- The `.trim()` sanitizer of express-validator: strips leading and trailing
whitespace. -/
def jsTrim (s : String) : String :=
  String.mk (((s.data.dropWhile isJsWhitespace).reverse.dropWhile isJsWhitespace).reverse)

/-- express-validator reads `req.body.<field>`; a missing field is stringified
to the empty string before validators run. -/
def fieldStr (v : Option String) : String := v.getD ""

/-- `lo <= s.length <= hi`, the check performed by `isLength({min, max})`. -/
def isLenBetween (s : String) (lo hi : Nat) : Bool :=
  decide (lo ≤ s.length ∧ s.length ≤ hi)

/-- Matcher for the regex fragment `9665\d{8}` (anchored): the characters
`9665` followed by exactly eight ASCII digits. -/
def tail9665 (cs : List Char) : Bool :=
  match cs with
  | '9' :: '6' :: '6' :: '5' :: rest => rest.length == 8 && rest.all Char.isDigit
  | _ => false

/-- Matcher for the regex fragment `05\d{8}` (anchored): the characters `05`
followed by exactly eight ASCII digits. -/
def mobile05 (cs : List Char) : Bool :=
  match cs with
  | '0' :: '5' :: rest => rest.length == 8 && rest.all Char.isDigit
  | _ => false

/-- The server's mobile rule, `matches(/^(\+?9665\d{8}|05\d{8})$/)` from
`backend/server.js`: note the `\+?` — the leading `+` is optional. -/
def mobileServerOk (s : String) : Bool :=
  (match s.data with
   | '+' :: rest => tail9665 rest
   | cs => tail9665 cs)
  || mobile05 s.data

/-- The `repId` rule `matches(/^\d{7}$/)`: exactly seven ASCII digits. -/
def repIdOk (s : String) : Bool :=
  s.data.length == 7 && s.data.all Char.isDigit

/-- An ASCII letter, the character class `[A-Za-z]`. -/
def isAsciiLetter (c : Char) : Bool :=
  ('A' ≤ c && c ≤ 'Z') || ('a' ≤ c && c ≤ 'z')

/-- The `courseCode` rule `matches(/^[A-Za-z]{2,}\d{2,}$/)`: at least two
letters followed by at least two digits, nothing else.  Because letters and
digits are disjoint, the regex match is exactly "maximal letter prefix of
length ≥ 2, remainder all digits of length ≥ 2". -/
def courseCodeOk (s : String) : Bool :=
  let letters := s.data.takeWhile isAsciiLetter
  let rest := s.data.dropWhile isAsciiLetter
  decide (2 ≤ letters.length) && decide (2 ≤ rest.length) && rest.all Char.isDigit

/-- Modelled from the spec: `isEmail()` is a call into the external
validator.js library (not part of this repository); the spec only requires a
syntactic `local@domain.tld` shape.  Both server variants call the identical
library validator, so one shared model stands for both. -/
def isEmailModel (s : String) : Bool :=
  let cs := s.data
  let before := cs.takeWhile (fun c => c != '@')
  match cs.dropWhile (fun c => c != '@') with
  | '@' :: dom =>
      decide (0 < before.length) && decide (0 < dom.length) &&
      !(dom.contains '@') && dom.contains '.' && !(cs.contains ' ')
  | _ => false

/-- Digit list to number, for `isInt`'s range comparison. -/
def digitsToNat (ds : List Char) : Nat :=
  ds.foldl (fun n c => n * 10 + (c.toNat - '0'.toNat)) 0

/-- Integer syntax accepted by validator.js `isInt` (default options): an
optional sign followed by at least one ASCII digit. -/
def parseJsInt (s : String) : Option Int :=
  match s.data with
  | [] => none
  | '+' :: ds => if ds.isEmpty || !(ds.all Char.isDigit) then none else some (digitsToNat ds)
  | '-' :: ds => if ds.isEmpty || !(ds.all Char.isDigit) then none else some (-(digitsToNat ds : Int))
  | ds => if ds.all Char.isDigit then some (digitsToNat ds) else none

/-- The `isInt({min, max})` rule. -/
def isIntBetween (s : String) (lo hi : Int) : Bool :=
  match parseJsInt s with
  | some v => decide (lo ≤ v ∧ v ≤ hi)
  | none => false

/-- One entry of `validationResult(req).array()`: the offending field's path
and the chain's `withMessage` text. -/
structure FieldError where
  path : String
  msg : String
deriving DecidableEq

/-- Body of `POST /api/contact` (flat JSON object; a field absent from the
request is `none`). -/
structure ContactBody where
  firstName : Option String
  lastName : Option String
  gender : Option String
  mobile : Option String
  dob : Option String
  email : Option String
  language : Option String
  message : Option String
deriving DecidableEq

/-- Body of `POST /api/project`.  `teamSize` is carried as its string
rendering (express-validator stringifies the JSON value before `isInt`). -/
structure ProjectBody where
  teamName : Option String
  teamSize : Option String
  repName : Option String
  repId : Option String
  repEmail : Option String
  otherMembers : Option String
  courseCode : Option String
  category : Option String
  projectType : Option String
  projectName : Option String
  projectDesc : Option String
  tools : Option String
deriving DecidableEq

/-- `check("firstName").trim().isLength({min:2,max:30})` (server.js). -/
def firstNamePass (v : Option String) : Bool := isLenBetween (jsTrim (fieldStr v)) 2 30

/-- `check("lastName").trim().isLength({min:2,max:30})` (server.js). -/
def lastNamePass (v : Option String) : Bool := isLenBetween (jsTrim (fieldStr v)) 2 30

/-- `check("gender").notEmpty()` (server.js); no trim sanitizer on this chain. -/
def genderPass (v : Option String) : Bool := !((fieldStr v).data.isEmpty)

/-- `check("mobile").trim().matches(/^(\+?9665\d{8}|05\d{8})$/)` (server.js). -/
def mobilePass (v : Option String) : Bool := mobileServerOk (jsTrim (fieldStr v))

/-- `check("dob").trim().notEmpty()` (server.js): the server's whole dob rule. -/
def dobPass (v : Option String) : Bool := !((jsTrim (fieldStr v)).data.isEmpty)

/-- `check("email").trim().isEmail()` (server.js). -/
def emailPass (v : Option String) : Bool := isEmailModel (jsTrim (fieldStr v))

/-- `check("language").notEmpty()` (server.js). -/
def languagePass (v : Option String) : Bool := !((fieldStr v).data.isEmpty)

/-- `check("message").trim().isLength({min:10,max:1000})` (server.js). -/
def messagePass (v : Option String) : Bool := isLenBetween (jsTrim (fieldStr v)) 10 1000

/-- A validation chain contributes one error entry when its predicate fails. -/
def runCheck (pass : Bool) (path msg : String) : List FieldError :=
  if pass then [] else [⟨path, msg⟩]

/-- The `/api/contact` validator array of `backend/server.js`, in source
order; `validationResult(req).array()` is their concatenation. -/
def contactValidate (b : ContactBody) : List FieldError :=
  runCheck (firstNamePass b.firstName) "firstName" "first name must be 2–30 characters" ++
  runCheck (lastNamePass b.lastName) "lastName" "last name must be 2–30 characters" ++
  runCheck (genderPass b.gender) "gender" "please select a gender" ++
  runCheck (mobilePass b.mobile) "mobile" "use saudi format: +9665xxxxxxxx or 05xxxxxxxx" ++
  runCheck (dobPass b.dob) "dob" "dob is required" ++
  runCheck (emailPass b.email) "email" "enter a valid email" ++
  runCheck (languagePass b.language) "language" "choose at least one language" ++
  runCheck (messagePass b.message) "message" "message must be between 10 and 1000 characters"

/-- `check("teamName").trim().isLength({min:3,max:50})` (server.js). -/
def teamNamePass (v : Option String) : Bool := isLenBetween (jsTrim (fieldStr v)) 3 50

/-- `check("teamSize").isInt({min:1,max:10})` (server.js); no trim sanitizer. -/
def teamSizePass (v : Option String) : Bool := isIntBetween (fieldStr v) 1 10

/-- `check("repName").trim().isLength({min:3,max:50})` (server.js). -/
def repNamePass (v : Option String) : Bool := isLenBetween (jsTrim (fieldStr v)) 3 50

/-- `check("repId").trim().matches(/^\d{7}$/)` (server.js). -/
def repIdPass (v : Option String) : Bool := repIdOk (jsTrim (fieldStr v))

/-- `check("repEmail").trim().isEmail()` (server.js). -/
def repEmailPass (v : Option String) : Bool := isEmailModel (jsTrim (fieldStr v))

/-- `check("courseCode").trim().matches(/^[A-Za-z]{2,}\d{2,}$/)` (server.js). -/
def courseCodePass (v : Option String) : Bool := courseCodeOk (jsTrim (fieldStr v))

/-- `check("category").notEmpty()` (server.js). -/
def categoryPass (v : Option String) : Bool := !((fieldStr v).data.isEmpty)

/-- `check("projectType").notEmpty()` (server.js). -/
def projectTypePass (v : Option String) : Bool := !((fieldStr v).data.isEmpty)

/-- `check("projectName").trim().isLength({min:3,max:60})` (server.js). -/
def projectNamePass (v : Option String) : Bool := isLenBetween (jsTrim (fieldStr v)) 3 60

/-- `check("projectDesc").trim().isLength({min:10,max:400})` (server.js). -/
def projectDescPass (v : Option String) : Bool := isLenBetween (jsTrim (fieldStr v)) 10 400

/-- The `/api/project` validator array of `backend/server.js`, in source
order (tools and otherMembers have no chain). -/
def projectValidate (b : ProjectBody) : List FieldError :=
  runCheck (teamNamePass b.teamName) "teamName" "team name must be 3–50 characters" ++
  runCheck (teamSizePass b.teamSize) "teamSize" "team size must be between 1 and 10" ++
  runCheck (repNamePass b.repName) "repName" "representative name must be 3–50 characters" ++
  runCheck (repIdPass b.repId) "repId" "representative id must be exactly 7 digits" ++
  runCheck (repEmailPass b.repEmail) "repEmail" "representative email must be valid" ++
  runCheck (courseCodePass b.courseCode) "courseCode" "course code must look like ccsw321" ++
  runCheck (categoryPass b.category) "category" "major / track is required" ++
  runCheck (projectTypePass b.projectType) "projectType" "project type is required" ++
  runCheck (projectNamePass b.projectName) "projectName" "project title must be 3–60 characters" ++
  runCheck (projectDescPass b.projectDesc) "projectDesc" "description must be 10–400 characters"

/-- `check("firstName").trim().isLength({min:2,max:30})` (second server
variant). -/
def firstNamePassV2 (v : Option String) : Bool := isLenBetween (jsTrim (fieldStr v)) 2 30

/-- `check("lastName").trim().isLength({min:2,max:30})` (second variant). -/
def lastNamePassV2 (v : Option String) : Bool := isLenBetween (jsTrim (fieldStr v)) 2 30

/-- `check("gender").notEmpty()` (second variant). -/
def genderPassV2 (v : Option String) : Bool := !((fieldStr v).data.isEmpty)

/-- `check("mobile").trim().matches(/^(\+?9665\d{8}|05\d{8})$/)` (second
variant; the regex is character-identical to server.js's). -/
def mobilePassV2 (v : Option String) : Bool := mobileServerOk (jsTrim (fieldStr v))

/-- `check("dob").trim().notEmpty()` (second variant). -/
def dobPassV2 (v : Option String) : Bool := !((jsTrim (fieldStr v)).data.isEmpty)

/-- `check("email").trim().isEmail()` (second variant). -/
def emailPassV2 (v : Option String) : Bool := isEmailModel (jsTrim (fieldStr v))

/-- `check("language").notEmpty()` (second variant). -/
def languagePassV2 (v : Option String) : Bool := !((fieldStr v).data.isEmpty)

/-- `check("message").trim().isLength({min:10,max:1000})` (second variant). -/
def messagePassV2 (v : Option String) : Bool := isLenBetween (jsTrim (fieldStr v)) 10 1000

/-- The `/api/contact` validator array of the second server variant: same
chains, capitalised messages. -/
def contactValidateV2 (b : ContactBody) : List FieldError :=
  runCheck (firstNamePassV2 b.firstName) "firstName" "First name must be 2–30 characters" ++
  runCheck (lastNamePassV2 b.lastName) "lastName" "Last name must be 2–30 characters" ++
  runCheck (genderPassV2 b.gender) "gender" "Please select a valid gender" ++
  runCheck (mobilePassV2 b.mobile) "mobile" "Use Saudi format: +9665XXXXXXXX or 05XXXXXXXX" ++
  runCheck (dobPassV2 b.dob) "dob" "DOB is required" ++
  runCheck (emailPassV2 b.email) "email" "Enter a valid email" ++
  runCheck (languagePassV2 b.language) "language" "Choose a valid language" ++
  runCheck (messagePassV2 b.message) "message" "Message must be between 10 and 1000 characters"

/-- `check("teamName").trim().isLength({min:3,max:50})` (second variant). -/
def teamNamePassV2 (v : Option String) : Bool := isLenBetween (jsTrim (fieldStr v)) 3 50

/-- `check("teamSize").isInt({min:1,max:10})` (second variant). -/
def teamSizePassV2 (v : Option String) : Bool := isIntBetween (fieldStr v) 1 10

/-- `check("repName").trim().isLength({min:3,max:50})` (second variant). -/
def repNamePassV2 (v : Option String) : Bool := isLenBetween (jsTrim (fieldStr v)) 3 50

/-- `check("repId").trim().matches(/^\d{7}$/)` (second variant). -/
def repIdPassV2 (v : Option String) : Bool := repIdOk (jsTrim (fieldStr v))

/-- `check("repEmail").trim().isEmail()` (second variant). -/
def repEmailPassV2 (v : Option String) : Bool := isEmailModel (jsTrim (fieldStr v))

/-- `check("courseCode").trim().matches(/^[A-Za-z]{2,}\d{2,}$/)` (second
variant). -/
def courseCodePassV2 (v : Option String) : Bool := courseCodeOk (jsTrim (fieldStr v))

/-- `check("category").notEmpty()` (second variant). -/
def categoryPassV2 (v : Option String) : Bool := !((fieldStr v).data.isEmpty)

/-- `check("projectType").notEmpty()` (second variant). -/
def projectTypePassV2 (v : Option String) : Bool := !((fieldStr v).data.isEmpty)

/-- `check("projectName").trim().isLength({min:3,max:60})` (second variant). -/
def projectNamePassV2 (v : Option String) : Bool := isLenBetween (jsTrim (fieldStr v)) 3 60

/-- `check("projectDesc").trim().isLength({min:10,max:400})` (second
variant). -/
def projectDescPassV2 (v : Option String) : Bool := isLenBetween (jsTrim (fieldStr v)) 10 400

/-- The `/api/project` validator array of the second server variant. -/
def projectValidateV2 (b : ProjectBody) : List FieldError :=
  runCheck (teamNamePassV2 b.teamName) "teamName" "Team name must be 3–50 characters" ++
  runCheck (teamSizePassV2 b.teamSize) "teamSize" "Team size must be between 1 and 10" ++
  runCheck (repNamePassV2 b.repName) "repName" "Representative name must be 3–50 characters" ++
  runCheck (repIdPassV2 b.repId) "repId" "Representative ID must be exactly 7 digits" ++
  runCheck (repEmailPassV2 b.repEmail) "repEmail" "Representative email must be valid" ++
  runCheck (courseCodePassV2 b.courseCode) "courseCode" "Course code must look like CCSW321" ++
  runCheck (categoryPassV2 b.category) "category" "Major / track is required" ++
  runCheck (projectTypePassV2 b.projectType) "projectType" "Project type is required" ++
  runCheck (projectNamePassV2 b.projectName) "projectName" "Project title must be 3–60 characters" ++
  runCheck (projectDescPassV2 b.projectDesc) "projectDesc" "Description must be 10–400 characters"

/-- A row of the `contact_messages` table: the eight values of the INSERT in
`backend/server.js` (sanitized — i.e. trimmed — for the chains that carry a
`.trim()`, raw for `gender` and `language`). -/
structure ContactRow where
  first_name : String
  last_name : String
  gender : String
  mobile : String
  dob : String
  email : String
  language : String
  message : String
deriving DecidableEq

/-- A row of the `projects` table: the store-assigned `id` plus the twelve
values of the INSERT in `backend/server.js`.  `team_size` keeps its request
string rendering (no sanitizer touches it). -/
structure ProjectRow where
  id : Nat
  team_name : String
  team_size : String
  rep_name : String
  rep_id : String
  rep_email : String
  other_members : String
  course_code : String
  category : String
  project_type : String
  project_name : String
  description : String
  tools : String
deriving DecidableEq

/-- The relational store: both tables plus the auto-increment counter of
`projects`. -/
structure Store where
  contacts : List ContactRow
  projects : List ProjectRow
  nextId : Nat
deriving DecidableEq

/-- The store's initial state: both tables empty, auto-increment at 1. -/
def Store.empty : Store := ⟨[], [], 1⟩

/-- The column set SELECTed by `GET /api/projects` in `backend/server.js`
(includes `other_members` and `tools`; omits `rep_id`, `rep_email`). -/
structure ProjectViewA where
  id : Nat
  team_name : String
  team_size : String
  other_members : String
  course_code : String
  category : String
  project_type : String
  project_name : String
  rep_name : String
  description : String
  tools : String
deriving DecidableEq

/-- The column set SELECTed by the second server variant's `GET /api/projects`
(omits `other_members` and `tools` as well). -/
structure ProjectViewB where
  id : Nat
  team_name : String
  team_size : String
  course_code : String
  category : String
  project_type : String
  project_name : String
  rep_name : String
  description : String
deriving DecidableEq

/-- JSON response bodies the two server variants produce. -/
inductive RespBody where
  | okMsg (msg : String)
  | errErrors (errors : List FieldError)
  | errMsg (msg : String)
  | okDataA (data : List ProjectViewA)
  | okDataB (data : List ProjectViewB)
deriving DecidableEq

/-- An HTTP response: status code (200 is `res.json`'s default) and body. -/
structure Response where
  status : Nat
  body : RespBody
deriving DecidableEq

/-- The row INSERTed by the `/api/contact` handler: `req.body` values after
the sanitizers ran (trimmed where the chain has `.trim()`). -/
def contactRowOf (b : ContactBody) : ContactRow where
  first_name := jsTrim (fieldStr b.firstName)
  last_name := jsTrim (fieldStr b.lastName)
  gender := fieldStr b.gender
  mobile := jsTrim (fieldStr b.mobile)
  dob := jsTrim (fieldStr b.dob)
  email := jsTrim (fieldStr b.email)
  language := fieldStr b.language
  message := jsTrim (fieldStr b.message)

/-- The row INSERTed by the `/api/project` handler with identifier `id`:
sanitized values, with `otherMembers || ""` and `tools || ""` defaulting the
two optional fields to the empty string. -/
def projectRowOf (id : Nat) (b : ProjectBody) : ProjectRow where
  id := id
  team_name := jsTrim (fieldStr b.teamName)
  team_size := fieldStr b.teamSize
  rep_name := jsTrim (fieldStr b.repName)
  rep_id := jsTrim (fieldStr b.repId)
  rep_email := jsTrim (fieldStr b.repEmail)
  other_members := fieldStr b.otherMembers
  course_code := jsTrim (fieldStr b.courseCode)
  category := fieldStr b.category
  project_type := fieldStr b.projectType
  project_name := jsTrim (fieldStr b.projectName)
  description := jsTrim (fieldStr b.projectDesc)
  tools := fieldStr b.tools

/-- The `POST /api/contact` handler of `backend/server.js`: 400 with
`errors.array()` when validation fails, otherwise INSERT then 200, or 500
when the database call throws (`dbOk = false`). -/
def contactHandler (s : Store) (dbOk : Bool) (b : ContactBody) : Store × Response :=
  let errs := contactValidate b
  if errs.isEmpty then
    if dbOk then
      ({ s with contacts := s.contacts ++ [contactRowOf b] },
       ⟨200, .okMsg "your message was received successfully ✔"⟩)
    else
      (s, ⟨500, .errMsg "database error while saving your message."⟩)
  else
    (s, ⟨400, .errErrors errs⟩)

/-- The `POST /api/project` handler of `backend/server.js`.  The new row gets
the auto-increment value; rows are kept newest-first so that ids decrease
along the list. -/
def projectHandler (s : Store) (dbOk : Bool) (b : ProjectBody) : Store × Response :=
  let errs := projectValidate b
  if errs.isEmpty then
    if dbOk then
      ({ s with projects := projectRowOf s.nextId b :: s.projects, nextId := s.nextId + 1 },
       ⟨200, .okMsg "team project idea saved successfully ✔"⟩)
    else
      (s, ⟨500, .errMsg "database error while saving project."⟩)
  else
    (s, ⟨400, .errErrors errs⟩)

/-- `ORDER BY id DESC` as a relation: `a` comes no later than `b` when its id
is no smaller. -/
def projOrder (a b : ProjectRow) : Prop := b.id ≤ a.id

instance : DecidableRel projOrder := fun a b => Nat.decLe b.id a.id

instance : IsTotal ProjectRow projOrder := ⟨fun a b => Nat.le_total b.id a.id⟩

instance : IsTrans ProjectRow projOrder := ⟨fun _ _ _ h h' => Nat.le_trans h' h⟩

/-- Projection of a stored row onto `backend/server.js`'s SELECT list. -/
def viewA (p : ProjectRow) : ProjectViewA where
  id := p.id
  team_name := p.team_name
  team_size := p.team_size
  other_members := p.other_members
  course_code := p.course_code
  category := p.category
  project_type := p.project_type
  project_name := p.project_name
  rep_name := p.rep_name
  description := p.description
  tools := p.tools

/-- Projection of a stored row onto the second variant's SELECT list. -/
def viewB (p : ProjectRow) : ProjectViewB where
  id := p.id
  team_name := p.team_name
  team_size := p.team_size
  course_code := p.course_code
  category := p.category
  project_type := p.project_type
  project_name := p.project_name
  rep_name := p.rep_name
  description := p.description

/-- Data of `GET /api/projects` (server.js variant): all stored rows,
`ORDER BY id DESC`, projected onto its column list. -/
def listDataA (s : Store) : List ProjectViewA :=
  (List.insertionSort projOrder s.projects).map viewA

/-- Data of `GET /api/projects` (second variant): same rows and order,
narrower column list. -/
def listDataB (s : Store) : List ProjectViewB :=
  (List.insertionSort projOrder s.projects).map viewB

/-- The `GET /api/projects` handler of `backend/server.js`. -/
def listProjectsA (s : Store) (dbOk : Bool) : Response :=
  if dbOk then ⟨200, .okDataA (listDataA s)⟩
  else ⟨500, .errMsg "database error while loading projects."⟩

/-- The `GET /api/projects` handler of the second server variant. -/
def listProjectsB (s : Store) (dbOk : Bool) : Response :=
  if dbOk then ⟨200, .okDataB (listDataB s)⟩
  else ⟨500, .errMsg "Database error while loading projects."⟩

/-- One request/response interaction, as a transition on store states (the
listing route never changes the store). -/
inductive Step : Store → Store → Prop where
  | contact (s : Store) (dbOk : Bool) (b : ContactBody) : Step s (contactHandler s dbOk b).1
  | project (s : Store) (dbOk : Bool) (b : ProjectBody) : Step s (projectHandler s dbOk b).1

/-- Store states reachable from the initial empty store by any sequence of
requests. -/
inductive Reachable : Store → Prop where
  | init : Reachable Store.empty
  | step {s s' : Store} : Reachable s → Step s s' → Reachable s'

/-- A contact body that satisfies every server-side rule. -/
def cbValid : ContactBody where
  firstName := some "John"
  lastName := some "Doe"
  gender := some "male"
  mobile := some "0512345678"
  dob := some "2000-01-15"
  email := some "john@example.com"
  language := some "en"
  message := some "hello there my friend"

/-- A contact request with no fields at all: every chain fails. -/
def cbEmpty : ContactBody where
  firstName := none
  lastName := none
  gender := none
  mobile := none
  dob := none
  email := none
  language := none
  message := none

/-- Valid contact body except that dob lies far in the future. -/
def cbFutureDob : ContactBody := { cbValid with dob := some "9999-12-31" }

/-- Valid contact body except that firstName contains digits. -/
def cbDigitName : ContactBody := { cbValid with firstName := some "John123" }

/-- A project body that satisfies every server-side rule; the optional
otherMembers and tools fields are absent. -/
def pbValid : ProjectBody where
  teamName := some "Alpha Team"
  teamSize := some "5"
  repName := some "Sara Ali"
  repId := some "1234567"
  repEmail := some "rep@uj.edu.sa"
  otherMembers := none
  courseCode := some "CCSW321"
  category := some "cs"
  projectType := some "group"
  projectName := some "Idea Hub"
  projectDesc := some "a web portal for sharing ideas"
  tools := none

/-- A project request with no fields at all: every chain fails. -/
def pbEmpty : ProjectBody where
  teamName := none
  teamSize := none
  repName := none
  repId := none
  repEmail := none
  otherMembers := none
  courseCode := none
  category := none
  projectType := none
  projectName := none
  projectDesc := none
  tools := none

theorem tail9665_iff (cs : List Char) :
    tail9665 cs = true ↔
      ∃ ds : List Char, cs = '9' :: '6' :: '6' :: '5' :: ds ∧ ds.length = 8 ∧
        ∀ c ∈ ds, c.isDigit := by
  constructor
  · intro h
    unfold tail9665 at h
    split at h
    · rename_i rest
      rw [Bool.and_eq_true] at h
      exact ⟨rest, rfl, by simpa using h.1, by simpa [List.all_eq_true] using h.2⟩
    · simp at h
  · rintro ⟨ds, rfl, hlen, hdig⟩
    unfold tail9665
    simp only [Bool.and_eq_true, beq_iff_eq, List.all_eq_true]
    exact ⟨hlen, hdig⟩

theorem mobile05_iff (cs : List Char) :
    mobile05 cs = true ↔
      ∃ ds : List Char, cs = '0' :: '5' :: ds ∧ ds.length = 8 ∧ ∀ c ∈ ds, c.isDigit := by
  constructor
  · intro h
    unfold mobile05 at h
    split at h
    · rename_i rest
      rw [Bool.and_eq_true] at h
      exact ⟨rest, rfl, by simpa using h.1, by simpa [List.all_eq_true] using h.2⟩
    · simp at h
  · rintro ⟨ds, rfl, hlen, hdig⟩
    unfold mobile05
    simp only [Bool.and_eq_true, beq_iff_eq, List.all_eq_true]
    exact ⟨hlen, hdig⟩

/-- C2 counterexample: the spec's vector `05012345678` is `05` followed by
NINE digits, so the server regex rejects it; `0501234567` is `05` followed by
eight digits, so it is accepted; and because the regex makes the leading `+`
optional (`\+?`), `966501234567` without a `+` is also accepted, contradicting
the claim's "exactly +9665 followed by 8 digits or 05 followed by 8 digits". -/
theorem C2_mobile_rule_counterexample :
    mobileServerOk "05012345678" = false ∧
    mobileServerOk "0501234567" = true ∧
    mobileServerOk "966501234567" = true := by decide

/-- C2 (amended): the server-side mobile validation accepts exactly the
strings of the form 9665 followed by 8 digits with an optional leading `+`,
or 05 followed by 8 digits.  Accordingly `05012345678` (nine trailing digits)
fails, `0501234567` (eight trailing digits) passes, `+966501234567` passes,
`9665012345678` fails (nine digits after 9665), and `966501234567` without
the `+` passes. -/
theorem C2_mobile_rule_amended :
    (∀ s : String, mobileServerOk s = true ↔
      ∃ ds : List Char, ds.length = 8 ∧ (∀ c ∈ ds, c.isDigit) ∧
        (s.data = '+' :: '9' :: '6' :: '6' :: '5' :: ds ∨
         s.data = '9' :: '6' :: '6' :: '5' :: ds ∨
         s.data = '0' :: '5' :: ds)) ∧
    mobileServerOk "05012345678" = false ∧
    mobileServerOk "0501234567" = true ∧
    mobileServerOk "+966501234567" = true ∧
    mobileServerOk "9665012345678" = false ∧
    mobileServerOk "966501234567" = true := by
  refine ⟨?_, by decide, by decide, by decide, by decide, by decide⟩
  intro s
  unfold mobileServerOk
  rw [Bool.or_eq_true]
  constructor
  · intro h
    rcases h with h | h
    · split at h
      · rename_i rest heq
        rcases (tail9665_iff rest).1 h with ⟨ds, rfl, hlen, hdig⟩
        exact ⟨ds, hlen, hdig, Or.inl heq⟩
      · rcases (tail9665_iff _).1 h with ⟨ds, heq, hlen, hdig⟩
        exact ⟨ds, hlen, hdig, Or.inr (Or.inl heq)⟩
    · rcases (mobile05_iff _).1 h with ⟨ds, heq, hlen, hdig⟩
      exact ⟨ds, hlen, hdig, Or.inr (Or.inr heq)⟩
  · rintro ⟨ds, hlen, hdig, (heq | heq | heq)⟩
    · left
      rw [heq]
      exact (tail9665_iff _).2 ⟨ds, rfl, hlen, hdig⟩
    · left
      rw [heq]
      split
      · rename_i rest hr
        rw [List.cons.injEq] at hr
        simp at hr
      · exact (tail9665_iff _).2 ⟨ds, rfl, hlen, hdig⟩
    · right
      rw [heq]
      exact (mobile05_iff _).2 ⟨ds, rfl, hlen, hdig⟩

/-- C3 counterexample: a contact submission whose dob lies in the future
(`9999-12-31`) produces no validation error at all — the server's dob chain is
only `trim().notEmpty()` — and with a working database the record is
persisted. -/
theorem C3_dob_counterexample :
    contactValidate cbFutureDob = [] ∧
    (contactHandler Store.empty true cbFutureDob).1.contacts =
      [contactRowOf cbFutureDob] ∧
    (contactRowOf cbFutureDob).dob = "9999-12-31" := by decide

/-- C3 (amended): the authoritative (server-side) validation rejects dob
exactly when it is empty after trimming; it performs no calendar-date parsing
and no comparison against the current date (those checks exist only in the
client script), so any non-empty string — a future date, or even a non-date —
is accepted. -/
theorem C3_dob_rule_amended :
    (∀ v : Option String, dobPass v = true ↔ jsTrim (fieldStr v) ≠ "") ∧
    dobPass (some "9999-12-31") = true ∧
    dobPass (some "not a date") = true ∧
    dobPass none = false := by
  refine ⟨?_, by decide, by decide, by decide⟩
  intro v
  unfold dobPass
  rw [Bool.not_eq_true']
  constructor
  · intro h hne
    rw [hne] at h
    simp [List.isEmpty] at h
  · intro h
    cases hd : (jsTrim (fieldStr v)).data with
    | nil =>
        exact absurd (congrArg String.mk hd) h
    | cons c cs => simp [hd]

/-- C5 counterexample: the server's firstName/lastName chains are only
`trim().isLength({min:2,max:30})`; a trimmed 2–30-character value containing
digits passes, and a whole submission carrying such a name is accepted. -/
theorem C5_name_rule_counterexample :
    firstNamePass (some "John123") = true ∧
    (∃ c ∈ "John123".data, c.isDigit) ∧
    contactValidate cbDigitName = [] := by decide

/-- C5 (amended): the server-side validation accepts firstName and lastName
exactly when the trimmed value's length is between 2 and 30; it imposes no
letters-only restriction (that rule exists only in the client script). -/
theorem C5_name_rule_amended :
    ∀ v : Option String,
      (firstNamePass v = true ↔
        2 ≤ (jsTrim (fieldStr v)).length ∧ (jsTrim (fieldStr v)).length ≤ 30) ∧
      (lastNamePass v = true ↔
        2 ≤ (jsTrim (fieldStr v)).length ∧ (jsTrim (fieldStr v)).length ≤ 30) := by
  intro v
  constructor
  · unfold firstNamePass isLenBetween
    exact decide_eq_true_iff
  · unfold lastNamePass isLenBetween
    exact decide_eq_true_iff

/-- A contact row that was produced by a successfully validated request. -/
def ContactRowJustified (r : ContactRow) : Prop :=
  ∃ b : ContactBody, contactValidate b = [] ∧ r = contactRowOf b

/-- A project row that was produced by a successfully validated request. -/
def ProjectRowJustified (p : ProjectRow) : Prop :=
  ∃ b : ProjectBody, projectValidate b = [] ∧ ∃ id : Nat, p = projectRowOf id b

/-- Store invariant: all rows passed validation at creation time, project ids
stay below the auto-increment counter, and ids strictly decrease along the
(newest-first) project list. -/
def StoreInv (s : Store) : Prop :=
  (∀ r ∈ s.contacts, ContactRowJustified r) ∧
  (∀ p ∈ s.projects, ProjectRowJustified p) ∧
  (∀ p ∈ s.projects, p.id < s.nextId) ∧
  List.Pairwise (fun a b => b.id < a.id) s.projects

theorem storeInv_empty : StoreInv Store.empty := by
  refine ⟨?_, ?_, ?_, ?_⟩ <;> simp [Store.empty]

theorem step_preserves_storeInv {s s' : Store} (hs : StoreInv s) (h : Step s s') :
    StoreInv s' := by
  cases h with
  | contact dbOk b =>
      cases hval : (contactValidate b).isEmpty with
      | false => simpa [contactHandler, hval] using hs
      | true =>
          cases dbOk with
          | false => simpa [contactHandler, hval] using hs
          | true =>
              simp only [contactHandler, hval, if_true]
              refine ⟨?_, hs.2.1, hs.2.2.1, hs.2.2.2⟩
              intro r hr
              rcases List.mem_append.1 hr with hr | hr
              · exact hs.1 r hr
              · rcases List.mem_singleton.1 hr with rfl
                exact ⟨b, List.isEmpty_iff.1 hval, rfl⟩
  | project dbOk b =>
      cases hval : (projectValidate b).isEmpty with
      | false => simpa [projectHandler, hval] using hs
      | true =>
          cases dbOk with
          | false => simpa [projectHandler, hval] using hs
          | true =>
              simp only [projectHandler, hval, if_true]
              refine ⟨hs.1, ?_, ?_, ?_⟩
              · intro p hp
                rcases List.mem_cons.1 hp with rfl | hp
                · exact ⟨b, List.isEmpty_iff.1 hval, s.nextId, rfl⟩
                · exact hs.2.1 p hp
              · intro p hp
                rcases List.mem_cons.1 hp with rfl | hp
                · exact Nat.lt_succ_self _
                · exact Nat.lt_trans (hs.2.2.1 p hp) (Nat.lt_succ_self _)
              · exact List.Pairwise.cons (fun p hp => hs.2.2.1 p hp) hs.2.2.2

theorem reachable_storeInv {s : Store} (h : Reachable s) : StoreInv s := by
  induction h with
  | init => exact storeInv_empty
  | step _ hstep ih => exact step_preserves_storeInv ih hstep

/-- The store after one successful, valid contact submission. -/
def storeOneContact : Store := (contactHandler Store.empty true cbValid).1

/-- The store after one successful, valid project submission. -/
def storeOneProject : Store := (projectHandler Store.empty true pbValid).1

/-- C1: a record is inserted only when the body passed the endpoint's
server-side validation, and in every reachable store state every persisted
record arose from a body that passed the authoritative validation. -/
theorem C1_persisted_records_passed_validation (s : Store) (h : Reachable s) :
    (∀ r ∈ s.contacts, ∃ b : ContactBody, contactValidate b = [] ∧ r = contactRowOf b) ∧
    (∀ p ∈ s.projects, ∃ b : ProjectBody, projectValidate b = [] ∧
        ∃ id : Nat, p = projectRowOf id b) ∧
    (∀ (dbOk : Bool) (b : ContactBody),
        (contactHandler s dbOk b).1 ≠ s → contactValidate b = []) ∧
    (∀ (dbOk : Bool) (b : ProjectBody),
        (projectHandler s dbOk b).1 ≠ s → projectValidate b = []) := by
  have hinv := reachable_storeInv h
  refine ⟨hinv.1, hinv.2.1, ?_, ?_⟩
  · intro dbOk b hne
    cases hval : (contactValidate b).isEmpty with
    | true => exact List.isEmpty_iff.1 hval
    | false => exact absurd (by simp [contactHandler, hval]) hne
  · intro dbOk b hne
    cases hval : (projectValidate b).isEmpty with
    | true => exact List.isEmpty_iff.1 hval
    | false => exact absurd (by simp [projectHandler, hval]) hne

theorem C1_persisted_records_passed_validation_witness :
    Reachable storeOneContact ∧
    ∀ r ∈ storeOneContact.contacts,
      ∃ b : ContactBody, contactValidate b = [] ∧ r = contactRowOf b :=
  ⟨Reachable.step Reachable.init (Step.contact Store.empty true cbValid),
   (C1_persisted_records_passed_validation storeOneContact
      (Reachable.step Reachable.init (Step.contact Store.empty true cbValid))).1⟩

/-- C4: whenever at least one rule fails, the handler answers 400 with the
complete ordered list of all failing rules' messages and leaves the store
untouched. -/
theorem C4_validation_all_or_nothing (s : Store) (dbOk : Bool)
    (cb : ContactBody) (pb : ProjectBody)
    (hc : contactValidate cb ≠ []) (hp : projectValidate pb ≠ []) :
    contactHandler s dbOk cb = (s, ⟨400, .errErrors (contactValidate cb)⟩) ∧
    projectHandler s dbOk pb = (s, ⟨400, .errErrors (projectValidate pb)⟩) := by
  constructor
  · have hv : (contactValidate cb).isEmpty = false := by
      simpa [List.isEmpty_iff] using hc
    simp [contactHandler, hv]
  · have hv : (projectValidate pb).isEmpty = false := by
      simpa [List.isEmpty_iff] using hp
    simp [projectHandler, hv]

theorem C4_validation_all_or_nothing_witness :
    contactValidate cbEmpty ≠ [] ∧ projectValidate pbEmpty ≠ [] ∧
    (contactHandler Store.empty true cbEmpty =
        (Store.empty, ⟨400, .errErrors (contactValidate cbEmpty)⟩) ∧
     projectHandler Store.empty true pbEmpty =
        (Store.empty, ⟨400, .errErrors (projectValidate pbEmpty)⟩)) :=
  ⟨by decide, by decide,
   C4_validation_all_or_nothing Store.empty true cbEmpty pbEmpty (by decide) (by decide)⟩

/-- C6: a project submission passing every rule writes exactly one new record
(at the head of the newest-first list) with the validated field values,
`otherMembers` and `tools` defaulting to the empty string when absent, and
the response is the success confirmation. -/
theorem C6_valid_project_inserts_one_record (s : Store) (b : ProjectBody)
    (h : projectValidate b = []) :
    projectHandler s true b =
      ({ s with projects := projectRowOf s.nextId b :: s.projects,
                nextId := s.nextId + 1 },
       ⟨200, .okMsg "team project idea saved successfully ✔"⟩) ∧
    (projectHandler s true b).1.contacts = s.contacts ∧
    (b.otherMembers = none → (projectRowOf s.nextId b).other_members = "") ∧
    (b.tools = none → (projectRowOf s.nextId b).tools = "") := by
  refine ⟨?_, ?_, ?_, ?_⟩
  · simp [projectHandler, h]
  · simp [projectHandler, h]
  · intro hm
    simp [projectRowOf, fieldStr, hm]
  · intro ht
    simp [projectRowOf, fieldStr, ht]

theorem C6_valid_project_inserts_one_record_witness :
    projectValidate pbValid = [] ∧
    (projectHandler Store.empty true pbValid =
        ({ Store.empty with
            projects := projectRowOf Store.empty.nextId pbValid :: Store.empty.projects,
            nextId := Store.empty.nextId + 1 },
         ⟨200, .okMsg "team project idea saved successfully ✔"⟩) ∧
     (projectHandler Store.empty true pbValid).1.contacts = Store.empty.contacts ∧
     (pbValid.otherMembers = none →
        (projectRowOf Store.empty.nextId pbValid).other_members = "") ∧
     (pbValid.tools = none → (projectRowOf Store.empty.nextId pbValid).tools = "")) :=
  ⟨by decide, C6_valid_project_inserts_one_record Store.empty pbValid (by decide)⟩

/-- C7: a persistence failure yields HTTP 500 with a `msg` body, a validation
failure yields HTTP 400 with an `errors` body; the two are distinguishable by
status (and body constructor), and the store is unchanged in both cases. -/
theorem C7_error_kinds_distinguishable (s : Store) (dbOk : Bool)
    (good bad : ContactBody) (pgood pbad : ProjectBody)
    (hg : contactValidate good = []) (hb : contactValidate bad ≠ [])
    (hpg : projectValidate pgood = []) (hpb : projectValidate pbad ≠ []) :
    contactHandler s false good =
      (s, ⟨500, .errMsg "database error while saving your message."⟩) ∧
    contactHandler s dbOk bad = (s, ⟨400, .errErrors (contactValidate bad)⟩) ∧
    projectHandler s false pgood =
      (s, ⟨500, .errMsg "database error while saving project."⟩) ∧
    projectHandler s dbOk pbad = (s, ⟨400, .errErrors (projectValidate pbad)⟩) ∧
    (contactHandler s false good).2.status ≠ (contactHandler s dbOk bad).2.status ∧
    (projectHandler s false pgood).2.status ≠ (projectHandler s dbOk pbad).2.status := by
  have hvb : (contactValidate bad).isEmpty = false := by
    simpa [List.isEmpty_iff] using hb
  have hvpb : (projectValidate pbad).isEmpty = false := by
    simpa [List.isEmpty_iff] using hpb
  refine ⟨?_, ?_, ?_, ?_, ?_, ?_⟩
  · simp [contactHandler, hg]
  · simp [contactHandler, hvb]
  · simp [projectHandler, hpg]
  · simp [projectHandler, hvpb]
  · simp [contactHandler, hg, hvb]
  · simp [projectHandler, hpg, hvpb]

theorem C7_error_kinds_distinguishable_witness :
    contactValidate cbValid = [] ∧ contactValidate cbEmpty ≠ [] ∧
    projectValidate pbValid = [] ∧ projectValidate pbEmpty ≠ [] ∧
    (contactHandler Store.empty false cbValid =
        (Store.empty, ⟨500, .errMsg "database error while saving your message."⟩) ∧
     contactHandler Store.empty true cbEmpty =
        (Store.empty, ⟨400, .errErrors (contactValidate cbEmpty)⟩) ∧
     projectHandler Store.empty false pbValid =
        (Store.empty, ⟨500, .errMsg "database error while saving project."⟩) ∧
     projectHandler Store.empty true pbEmpty =
        (Store.empty, ⟨400, .errErrors (projectValidate pbEmpty)⟩) ∧
     (contactHandler Store.empty false cbValid).2.status ≠
        (contactHandler Store.empty true cbEmpty).2.status ∧
     (projectHandler Store.empty false pbValid).2.status ≠
        (projectHandler Store.empty true pbEmpty).2.status) :=
  ⟨by decide, by decide, by decide, by decide,
   C7_error_kinds_distinguishable Store.empty true cbValid cbEmpty pbValid pbEmpty
     (by decide) (by decide) (by decide) (by decide)⟩

/-- C8: `GET /api/projects` answers 200 with exactly the stored project rows
projected onto the SELECT list, in strictly descending identifier order
(reachable stores have pairwise-distinct, decreasing ids), and a store with
zero projects yields the success response with an empty data array. -/
theorem C8_listing_sorted_descending (s : Store) (h : Reachable s) :
    listProjectsA s true = ⟨200, .okDataA (s.projects.map viewA)⟩ ∧
    List.Pairwise (fun a b : ProjectViewA => b.id < a.id) (s.projects.map viewA) ∧
    (s.projects = [] → listProjectsA s true = ⟨200, .okDataA []⟩) := by
  have hinv := reachable_storeInv h
  have hsorted : List.Sorted projOrder s.projects :=
    hinv.2.2.2.imp fun hab => Nat.le_of_lt hab
  have hsort : List.insertionSort projOrder s.projects = s.projects :=
    hsorted.insertionSort_eq
  refine ⟨?_, ?_, ?_⟩
  · simp [listProjectsA, listDataA, hsort]
  · exact List.pairwise_map.2 hinv.2.2.2
  · intro hnil
    simp [listProjectsA, listDataA, hnil]

theorem C8_listing_sorted_descending_witness :
    Reachable storeOneProject ∧
    listProjectsA storeOneProject true =
      ⟨200, .okDataA (storeOneProject.projects.map viewA)⟩ :=
  ⟨Reachable.step Reachable.init (Step.project Store.empty true pbValid),
   (C8_listing_sorted_descending storeOneProject
      (Reachable.step Reachable.init (Step.project Store.empty true pbValid))).1⟩

/-- Forgetting the `other_members` and `tools` columns of the server.js
projection yields exactly the second variant's projection. -/
def dropExtraColumns (v : ProjectViewA) : ProjectViewB where
  id := v.id
  team_name := v.team_name
  team_size := v.team_size
  course_code := v.course_code
  category := v.category
  project_type := v.project_type
  project_name := v.project_name
  rep_name := v.rep_name
  description := v.description

/-- A project row used to separate the two listing projections. -/
def sampleRow : ProjectRow where
  id := 1
  team_name := "Alpha Team"
  team_size := "5"
  rep_name := "Sara Ali"
  rep_id := "1234567"
  rep_email := "rep@uj.edu.sa"
  other_members := ""
  course_code := "CCSW321"
  category := "cs"
  project_type := "group"
  project_name := "Idea Hub"
  description := "a web portal for sharing ideas"
  tools := ""

/-- C9: the two `GET /api/projects` variants project different column sets:
on every store the second variant's rows are exactly the first variant's rows
with `other_members` and `tools` erased (same remaining fields, same
descending order), and the erasure loses information, so the two listings are
not extensionally equal. -/
theorem C9_listing_projections_differ :
    (∀ s : Store, listDataB s = (listDataA s).map dropExtraColumns) ∧
    (∃ p q : ProjectRow, viewB p = viewB q ∧ viewA p ≠ viewA q ∧
        p.other_members ≠ q.other_members) ∧
    (∃ p q : ProjectRow, viewB p = viewB q ∧ viewA p ≠ viewA q ∧
        p.tools ≠ q.tools) := by
  refine ⟨?_, ?_, ?_⟩
  · intro s
    unfold listDataA listDataB
    rw [List.map_map]
    rfl
  · exact ⟨{ sampleRow with other_members := "Ali, Omar" }, sampleRow,
      by decide, by decide, by decide⟩
  · exact ⟨{ sampleRow with tools := "react" }, sampleRow,
      by decide, by decide, by decide⟩

theorem runCheck_map_path (pass : Bool) (path m : String) :
    (runCheck pass path m).map FieldError.path = if pass then [] else [path] := by
  cases pass <;> simp [runCheck]

/-- C10: the two server variants' validation middlewares are extensionally
equal up to message text: on every body they flag the same fields in the same
order, and in particular they accept exactly the same bodies — for
`/api/contact` and for `/api/project` alike. -/
theorem C10_variant_validators_agree :
    (∀ b : ContactBody,
        (contactValidate b).map FieldError.path =
          (contactValidateV2 b).map FieldError.path) ∧
    (∀ b : ContactBody, contactValidate b = [] ↔ contactValidateV2 b = []) ∧
    (∀ b : ProjectBody,
        (projectValidate b).map FieldError.path =
          (projectValidateV2 b).map FieldError.path) ∧
    (∀ b : ProjectBody, projectValidate b = [] ↔ projectValidateV2 b = []) := by
  have hc : ∀ b : ContactBody,
      (contactValidate b).map FieldError.path =
        (contactValidateV2 b).map FieldError.path := by
    intro b
    unfold contactValidate contactValidateV2
    simp only [List.map_append, runCheck_map_path]
    rfl
  have hp : ∀ b : ProjectBody,
      (projectValidate b).map FieldError.path =
        (projectValidateV2 b).map FieldError.path := by
    intro b
    unfold projectValidate projectValidateV2
    simp only [List.map_append, runCheck_map_path]
    rfl
  refine ⟨hc, ?_, hp, ?_⟩
  · intro b
    constructor <;> intro h
    · have hmap := hc b
      rw [h] at hmap
      exact List.map_eq_nil_iff.1 hmap.symm
    · have hmap := hc b
      rw [h] at hmap
      exact List.map_eq_nil_iff.1 hmap
  · intro b
    constructor <;> intro h
    · have hmap := hp b
      rw [h] at hmap
      exact List.map_eq_nil_iff.1 hmap.symm
    · have hmap := hp b
      rw [h] at hmap
      exact List.map_eq_nil_iff.1 hmap

end ClassMate
